import Mathlib

/-!
Shallow embedding of the Lattice hardware keyring (src/index.js).

The keyring is a JS class whose instance fields form the mutable state.
We embed that state as an explicit structure, and each relevant method as
a pure function from the old state (plus the externally supplied device
responses) to the new state and an outcome.  Buffers holding numeric
quantities (nonce, gas fields, values) are modelled by their numeric value:
the JS code immediately hex-encodes them with the injective encoding
`0x...toString(hex)`, so nothing is lost by working with the value itself.
-/

namespace LatticeKeyring

/-- JS values that the credential fields can hold: `undefined`, `null`,
or a string.  JS truthiness and the strict `!== null` comparison both
matter for `_hasCreds`, so the three cases are kept apart. -/
inductive JSVal where
  | undef : JSVal
  | null : JSVal
  | str : String → JSVal
deriving DecidableEq, Repr

/-- JS truthiness for the values of `JSVal`: `undefined` and `null` are
falsy, a string is truthy iff it is non-empty. -/
def JSVal.truthy : JSVal → Bool
  | .undef => false
  | .null => false
  | .str s => s ≠ ""

/-- `this.creds` as reset by `_resetDefaults` and populated by `_getCreds`. -/
structure Creds where
  deviceID : JSVal
  password : JSVal
  endpoint : JSVal
deriving DecidableEq, Repr

/-- source: `const HARDENED_OFFSET = 0x80000000` -/
def HARDENED_OFFSET : Nat := 0x80000000

/-- source: `const PER_PAGE = 5` -/
def PER_PAGE : Nat := 5

/-- source: `const CLOSE_CODE = -1000` -/
def CLOSE_CODE : Int := -1000

/-- The apostrophe character, used as the hardened marker in HD paths. -/
def hardMark : Char := Char.ofNat 39

/-- The apostrophe as a one-character string. -/
def hardMarkStr : String := String.singleton hardMark

/-- source: ``const STANDARD_HD_PATH = `m/44'/60'/0'/0/x` `` -/
def STANDARD_HD_PATH : String :=
  "m/44" ++ hardMarkStr ++ "/60" ++ hardMarkStr ++ "/0" ++ hardMarkStr ++ "/0/x"

/-- The instance fields of the `LatticeKeyring` class that the embedded
operations read or write.  `sdkSession` is modelled by mere presence
(`Option Unit`): its internals belong to the external SDK. -/
structure KeyringState where
  accounts : List String
  accountIndices : List Nat
  isLocked : Bool
  creds : Creds
  walletUID : Option String
  sdkSession : Option Unit
  page : Int
  unlockedAccount : Nat
  network : Option String
  hdPath : String
  appName : JSVal
deriving DecidableEq, Repr

/-- source: `_resetDefaults()` (lines 383-398).  Note that `appName` is
not among the fields it resets. -/
def resetDefaults (s : KeyringState) : KeyringState :=
  { s with
    accounts := []
    accountIndices := []
    isLocked := true
    creds := { deviceID := JSVal.null, password := JSVal.null, endpoint := JSVal.null }
    walletUID := none
    sdkSession := none
    page := 0
    unlockedAccount := 0
    network := none
    hdPath := STANDARD_HD_PATH }

/-- source: `forgetDevice()` (lines 313-315): delegates to `_resetDefaults`. -/
def forgetDevice (s : KeyringState) : KeyringState :=
  resetDefaults s

/-- source: `_hasCreds()` (lines 595-597):
`this.creds.deviceID !== null && this.creds.password !== null && this.appName`.
The JS expression returns the last truthy value; the result is only ever
used in boolean position, so we model its truthiness. -/
def hasCreds (s : KeyringState) : Bool :=
  s.creds.deviceID ≠ JSVal.null && s.creds.password ≠ JSVal.null && s.appName.truthy

/-- What the device reports during `sdkSession.connect` +
`getActiveWallet()`: a transport error, a missing/uid-less active wallet,
or an active wallet with the given uid (already hex-encoded). -/
inductive ConnectDeviceResult where
  | connectErr : String → ConnectDeviceResult
  | noActiveWallet : ConnectDeviceResult
  | wallet : String → ConnectDeviceResult
deriving DecidableEq, Repr

/-- Rejection message for a wallet change with `updateData == false`. -/
def staleWalletMsg : String := "Wallet has changed! Please reconnect."

/-- Rejection message when no active wallet is reported. -/
def noActiveWalletMsg : String := "No active wallet"

/-- source: `_connect(updateData)` (lines 449-475).  Returns the new
state together with the promise outcome; an error outcome carries the
rejection message.  The cached `walletUID` is `none` when the field is
still `null`; the JS loose comparison `newUID != this.walletUID` is true
exactly when the cache is `null` or holds a different string. -/
def connectStep (s : KeyringState) (updateData : Bool) (dev : ConnectDeviceResult) :
    KeyringState × Except String Unit :=
  match dev with
  | .connectErr e => (s, .error e)
  | .noActiveWallet => (s, .error noActiveWalletMsg)
  | .wallet newUID =>
    if s.walletUID ≠ some newUID then
      if updateData = false then
        (s, .error staleWalletMsg)
      else
        ({ s with accounts := [], walletUID := some newUID }, .ok ())
    else
      (s, .ok ())

/-- Outcome of the synchronous dispatch at the top of `addAccounts`:
either the promise settles immediately (resolve/reject) or control
proceeds to `unlock()` and the device round-trip. -/
inductive AddAccountsOutcome where
  | resolved : List String → AddAccountsOutcome
  | rejected : String → AddAccountsOutcome
  | proceed : AddAccountsOutcome
deriving DecidableEq, Repr

/-- Rejection message for a non-positive account count. -/
def nonPositiveMsg : String := "Number of accounts to add must be a positive number."

/-- source: `addAccounts(n)` (lines 94-125), the dispatch before any
device interaction: `n === CLOSE_CODE` forgets the device and resolves
`[]`; other `n <= 0` reject; positive `n` proceeds to `unlock()`. -/
def addAccountsEntry (s : KeyringState) (n : Int) : KeyringState × AddAccountsOutcome :=
  if n = CLOSE_CODE then
    (forgetDevice s, .resolved [])
  else if n ≤ 0 then
    (s, .rejected nonPositiveMsg)
  else
    (s, .proceed)

/-! ## HD Path Resolver -/

/-- The variable marker character in HD path templates. -/
def varMark : Char := 'x'

/-- JS `Number` applied to the decimal-digit segment strings occurring in
HD paths: `Number("") = 0` (matching `toNat?.getD 0` on the empty string)
and a canonical decimal string maps to its value.  Non-numeric input,
which `Number` maps to `NaN`, is outside the domain exercised here and is
mapped to 0. -/
def jsNumber (s : String) : Nat :=
  (s.toNat?).getD 0

/-- JS `a[i] < b` on an array of numbers: `false` when the index is out of
bounds (`undefined < b` is `false`). -/
def jsIdxLt (a : List Nat) (i : Nat) (b : Nat) : Bool :=
  match a[i]? with
  | some v => decide (v < b)
  | none => false

/-- Error message for an HD path resolving to more than 5 indices. -/
def pathLenMsg : String := "Only HD paths with up to 5 indices are allowed."

/-- `this.hdPath.split('/').slice(1)`: the path segments after the leading
`m`, computed identically in `_getHDPathIndices` (line 352) and
`_hdPathHasInternalVarIdx` (line 621). -/
def pathSegments (hdPath : String) : List String :=
  (hdPath.splitOn "/").drop 1

/-- The loop body of `_getHDPathIndices`'s `forEach` (lines 355-371):
accumulates the growing index list and the `usedX` flag. -/
def hdPathStep (insertIdx : Nat) (acc : List Nat × Bool) (seg : String) :
    List Nat × Bool :=
  let isHardened := seg.endsWith hardMarkStr
  let base := if isHardened then HARDENED_OFFSET else 0
  if seg.contains varMark then
    (acc.1 ++ [base + insertIdx], true)
  else if isHardened then
    (acc.1 ++ [base + jsNumber (seg.dropRight 1)], acc.2)
  else
    (acc.1 ++ [base + jsNumber seg], acc.2)

/-- source: `_getHDPathIndices(insertIdx)` (lines 351-381).  Splits the
path on `/`, drops the leading `m`, classifies every segment, appends
`insertIdx` when no segment carried the variable marker, and throws when
more than 5 indices result. -/
def getHDPathIndices (hdPath : String) (insertIdx : Nat) : Except String (List Nat) :=
  let path := pathSegments hdPath
  let r := path.foldl (hdPathStep insertIdx) ([], false)
  let indices := if r.2 then r.1 else r.1 ++ [insertIdx]
  if indices.length > 5 then .error pathLenMsg else .ok indices

/-- source: `_hdPathHasInternalVarIdx()` (lines 620-627): the loop
`for (i = 0; i < path.length - 1; i++)` looks for the marker in every
segment except the last. -/
def hdPathHasInternalVarIdx (hdPath : String) : Bool :=
  let path := pathSegments hdPath
  (List.range (path.length - 1)).any fun i => (path.getD i "").contains varMark

/-! ## Transaction Negotiator -/

/-- An EIP-2930 access list; the keyring never inspects its entries, only
passes them through. -/
abbrev AccessList := List (String × List String)

/-- The typed transaction as `signTransaction` reads it.  Numeric buffers
are modelled by their values; `to` is `none` for a contract deployment
(the falsy `tx.to`); `maxPriorityFeePerGas`/`maxFeePerGas` are `none`
when the field is `null` or `undefined`; «_type» is the declared
transaction type tag `tx._type` (`some 2` EIP-1559, `some 1` EIP-2930,
anything else legacy); `chainId` stands for `_getEthereumJsChainId`. -/
structure Tx where
  chainId : Nat
  nonce : Nat
  gasLimit : Nat
  «to» : Option String
  value : Nat
  data : List Nat
  gasPrice : Nat
  maxPriorityFeePerGas : Option Nat
  maxFeePerGas : Option Nat
  accessList : Option AccessList
  «_type» : Option Nat
deriving DecidableEq, Repr

/-- The `txData` request object sent to `sdkSession.sign` (lines 142-189).
`type` distinguishes a present-but-`null` field (`some none`, the legacy
case) from a deleted/absent one (`none`, after the firmware downgrade);
the optional fields default to absent. -/
structure TxData where
  chainId : Nat
  nonce : Nat
  gasLimit : Nat
  «to» : String
  value : Nat
  data : Option (List Nat)
  signerPath : List Nat
  type : Option (Option Nat) := none
  gasPrice : Option Nat := none
  maxPriorityFeePerGas : Option Nat := none
  maxFeePerGas : Option Nat := none
  accessList : Option AccessList := none
  revertToLegacy : Bool := false
deriving DecidableEq, Repr

/-- Rejection message for a missing `to` field. -/
def deploymentMsg : String :=
  "Contract deployment is not supported by the Lattice at this time. `to` field must be included."

/-- Error message for an EIP-1559 transaction missing its fee fields. -/
def feeFieldsMsg : String :=
  "`maxPriorityFeePerGas` and `maxFeePerGas` must be included for EIP1559 transactions."

/-- source: `signTransaction` lines 136-170: the `to` check, the `txData`
literal (empty payload normalised to `null`), and the `switch` on
`tx._type`.  `signerPath` is the already-resolved result of
`_getHDPathIndices(addrIdx)`. -/
def buildTxData (tx : Tx) (signerPath : List Nat) : Except String TxData :=
  match tx.«to» with
  | none => .error deploymentMsg
  | some toAddr =>
    let base : TxData :=
      { chainId := tx.chainId
        nonce := tx.nonce
        gasLimit := tx.gasLimit
        «to» := toAddr
        value := tx.value
        data := if tx.data.length = 0 then none else some tx.data
        signerPath := signerPath }
    match tx.«_type» with
    | some 2 =>
      match tx.maxPriorityFeePerGas, tx.maxFeePerGas with
      | some p, some f =>
        .ok { base with
              maxPriorityFeePerGas := some p
              maxFeePerGas := some f
              accessList := some (tx.accessList.getD [])
              type := some (some 2) }
      | _, _ => .error feeFieldsMsg
    | some 1 =>
      .ok { base with
            accessList := some (tx.accessList.getD [])
            gasPrice := some tx.gasPrice
            type := some (some 1) }
    | _ =>
      .ok { base with gasPrice := some tx.gasPrice, type := some none }

/-- source: lines 174-175.  `this.sdkSession.fwVersion` has the layout
`[fix, minor, major, reserved]`, so `fwVersion[2] < 1 && fwVersion[1] < 11`
reads `major < 1 && minor < 11`. -/
def forceLegacyTx (fw : List Nat) : Bool :=
  jsIdxLt fw 2 1 && jsIdxLt fw 1 11

/-- source: lines 176-189: the firmware downgrade of an EIP-1559 or
EIP-2930 request to legacy (`gasPrice := maxFeePerGas`, `revertToLegacy`,
deletion of the modern fields). -/
def negotiateFirmware (fw : List Nat) (td : TxData) : TxData :=
  if forceLegacyTx fw = true ∧ td.type = some (some 2) then
    { td with
      gasPrice := td.maxFeePerGas
      revertToLegacy := true
      type := none
      maxFeePerGas := none
      maxPriorityFeePerGas := none
      accessList := none }
  else if forceLegacyTx fw = true ∧ td.type = some (some 1) then
    { td with revertToLegacy := true, type := none, accessList := none }
  else
    td

/-- Lines 136-191 end to end: the signing request that `signTransaction`
hands to `_signTxData` (and hence to the device), after the firmware
negotiation; an error means the promise rejects before any signing call. -/
def buildSignRequest (tx : Tx) (signerPath : List Nat) (fw : List Nat) :
    Except String TxData :=
  (buildTxData tx signerPath).map (negotiateFirmware fw)

/-! ## Spec-side definitions (stated from the spec wording, for comparison
with the source embedding above) -/

/-- The index the spec assigns to one parsed segment: the hardening
constant for a hardened segment, plus the account index for a
variable-marker segment or the segment's numeric value otherwise. -/
def specSegmentIndex (accountIndex : Nat) (seg : String) : Nat :=
  (if seg.endsWith hardMarkStr then HARDENED_OFFSET else 0) +
    (if seg.contains varMark then accountIndex
     else jsNumber (if seg.endsWith hardMarkStr then seg.dropRight 1 else seg))

/-- The full index list the spec expects `resolve` to produce: every
segment's index in order, with the account index appended as one
additional terminal index when no segment carries the variable marker. -/
def specResolvedIndices (hdPath : String) (accountIndex : Nat) : List Nat :=
  (pathSegments hdPath).map (specSegmentIndex accountIndex) ++
    (if (pathSegments hdPath).any (fun s => s.contains varMark) then []
     else [accountIndex])

/-! ## Concrete sample inputs (used by the witnesses) -/

/-- A keyring state mid-session: one cached account fetched under wallet
uid `aa`, live credentials, an open session. -/
def sampleState : KeyringState :=
  { accounts := ["0xabc"]
    accountIndices := [0]
    isLocked := false
    creds := { deviceID := JSVal.str "dev", password := JSVal.str "pw", endpoint := JSVal.null }
    walletUID := some "aa"
    sdkSession := some ()
    page := 0
    unlockedAccount := 0
    network := none
    hdPath := STANDARD_HD_PATH
    appName := JSVal.str "app" }

/-- A state whose deviceID and password are both the empty string while
the app name is non-empty. -/
def emptyCredsState : KeyringState :=
  { sampleState with
    creds := { deviceID := JSVal.str "", password := JSVal.str "", endpoint := JSVal.null } }

/-- A well-formed EIP-1559 transaction (`maxPriorityFeePerGas = 1`,
`maxFeePerGas = 2`). -/
def tx1559 : Tx :=
  { chainId := 1
    nonce := 0
    gasLimit := 21000
    «to» := some "aabb"
    value := 5
    data := []
    gasPrice := 0
    maxPriorityFeePerGas := some 1
    maxFeePerGas := some 2
    accessList := none
    «_type» := some 2 }

/-- An EIP-1559 transaction whose `maxFeePerGas` is absent. -/
def tx1559NoMaxFee : Tx :=
  { tx1559 with maxFeePerGas := none }

/-! ## Helper lemmas -/

/-- Unrolling the `forEach` fold of `_getHDPathIndices`: it maps
`specSegmentIndex` over the segments and ors the `usedX` flag with
"some segment contains the marker". -/
theorem hdPathStep_foldl (insertIdx : Nat) (segs : List String)
    (acc : List Nat) (u : Bool) :
    segs.foldl (hdPathStep insertIdx) (acc, u) =
      (acc ++ segs.map (specSegmentIndex insertIdx),
        u || segs.any (fun s => s.contains varMark)) := by
  induction segs generalizing acc u with
  | nil => simp
  | cons s rest ih =>
    simp only [List.foldl_cons, List.map_cons, List.any_cons]
    by_cases hx : s.contains varMark = true
    · rw [show hdPathStep insertIdx (acc, u) s =
        (acc ++ [specSegmentIndex insertIdx s], true) by
          simp [hdPathStep, specSegmentIndex, hx]]
      rw [ih]
      simp [hx]
    · by_cases hh : s.endsWith hardMarkStr = true
      · rw [show hdPathStep insertIdx (acc, u) s =
          (acc ++ [specSegmentIndex insertIdx s], u) by
            simp [hdPathStep, specSegmentIndex, hx, hh]]
        rw [ih]
        simp [hx]
      · rw [show hdPathStep insertIdx (acc, u) s =
          (acc ++ [specSegmentIndex insertIdx s], u) by
            simp [hdPathStep, specSegmentIndex, hx, hh]]
        rw [ih]
        simp [hx]

/-- `_getHDPathIndices` computes `specResolvedIndices`, guarded by the
5-index limit. -/
theorem getHDPathIndices_characterization (hdPath : String) (accountIndex : Nat) :
    getHDPathIndices hdPath accountIndex =
      if (specResolvedIndices hdPath accountIndex).length > 5 then
        Except.error pathLenMsg
      else
        Except.ok (specResolvedIndices hdPath accountIndex) := by
  unfold getHDPathIndices specResolvedIndices
  simp only [hdPathStep_foldl]
  by_cases hx : (pathSegments hdPath).any (fun s => s.contains varMark) = true
  · simp [hx]
  · simp [hx]

/-! ## Claim theorems -/

/-- **C4**: for every HD path template, `_hdPathHasInternalVarIdx` returns
true if and only if the variable marker `x` appears in some segment other
than the last one; templates whose marker sits only in the terminal
segment, or that contain no marker, yield false. -/
theorem hdPathHasInternalVarIdx_iff_internal_marker (hdPath : String) :
    hdPathHasInternalVarIdx hdPath = true ↔
      ∃ i, i + 1 < (pathSegments hdPath).length ∧
        ((pathSegments hdPath).getD i "").contains varMark = true := by
  unfold hdPathHasInternalVarIdx
  simp only [List.any_eq_true, List.mem_range]
  constructor
  · rintro ⟨i, hi, hp⟩
    exact ⟨i, by omega, hp⟩
  · rintro ⟨i, hi, hp⟩
    exact ⟨i, by omega, hp⟩

/-- **C5**: for every HD path template and account index,
`_getHDPathIndices` resolves each segment to its hardened/non-hardened
index (adding `0x80000000` to hardened segments), lets a variable-marker
segment contribute the account index (plus the hardening offset if that
segment is hardened), and, when no segment contains the marker, appends
the account index as one additional terminal index — all guarded by the
5-index limit. -/
theorem getHDPathIndices_resolves_segments (hdPath : String) (accountIndex : Nat) :
    getHDPathIndices hdPath accountIndex =
      if (specResolvedIndices hdPath accountIndex).length > 5 then
        Except.error pathLenMsg
      else
        Except.ok
          ((pathSegments hdPath).map
              (fun seg =>
                (if seg.endsWith hardMarkStr then HARDENED_OFFSET else 0) +
                  (if seg.contains varMark then accountIndex
                   else jsNumber
                     (if seg.endsWith hardMarkStr then seg.dropRight 1 else seg))) ++
            (if (pathSegments hdPath).any (fun s => s.contains varMark) then []
             else [accountIndex])) := by
  rw [getHDPathIndices_characterization]
  rfl

/-- **C6**: `_getHDPathIndices` never returns more than 5 derivation
indices: every run either fails with the format error or succeeds with a
list of length at most 5, and it fails with the format error exactly when
the resolved index count would exceed 5 (so no partial result is ever
returned in that case). -/
theorem getHDPathIndices_at_most_five_indices (hdPath : String) (accountIndex : Nat) :
    ((getHDPathIndices hdPath accountIndex = Except.error pathLenMsg) ∨
      ∃ l, getHDPathIndices hdPath accountIndex = Except.ok l ∧ l.length ≤ 5) ∧
    (getHDPathIndices hdPath accountIndex = Except.error pathLenMsg ↔
      5 < (specResolvedIndices hdPath accountIndex).length) := by
  rw [getHDPathIndices_characterization]
  by_cases h : (specResolvedIndices hdPath accountIndex).length > 5
  · refine ⟨Or.inl ?_, ?_⟩ <;> simp [h]
  · constructor
    · exact Or.inr ⟨specResolvedIndices hdPath accountIndex, by simp [h], by omega⟩
    · simp only [if_neg h]
      constructor
      · intro hcontra
        exact absurd hcontra (by simp)
      · intro hlt
        exact absurd hlt h

/-- **C1**: an EIP-1559 transaction signed against firmware below 0.11
(major 0, minor < 11, regardless of fix — `fwVersion` is laid out
`[fix, minor, major, reserved]`) has its request rewritten to Legacy:
`gasPrice` becomes the original `maxFeePerGas`, the `type`, fee and
access-list fields are deleted, and `revertToLegacy` is set; against
firmware at or above 0.11 (major ≥ 1 or minor ≥ 11) the request keeps its
EIP-1559 type and fee fields unchanged. -/
theorem eip1559_firmware_downgrade (tx : Tx) (sp fw : List Nat)
    (toAddr : String) (p f minor major : Nat)
    (hto : tx.«to» = some toAddr) (hty : tx.«_type» = some 2)
    (hp : tx.maxPriorityFeePerGas = some p) (hf : tx.maxFeePerGas = some f)
    (hmin : fw[1]? = some minor) (hmaj : fw[2]? = some major) :
    (major = 0 → minor < 11 →
      buildSignRequest tx sp fw = Except.ok
        { chainId := tx.chainId, nonce := tx.nonce, gasLimit := tx.gasLimit
          «to» := toAddr, value := tx.value
          data := if tx.data.length = 0 then none else some tx.data
          signerPath := sp
          type := none
          gasPrice := some f
          maxPriorityFeePerGas := none
          maxFeePerGas := none
          accessList := none
          revertToLegacy := true }) ∧
    (1 ≤ major ∨ 11 ≤ minor →
      buildSignRequest tx sp fw = Except.ok
        { chainId := tx.chainId, nonce := tx.nonce, gasLimit := tx.gasLimit
          «to» := toAddr, value := tx.value
          data := if tx.data.length = 0 then none else some tx.data
          signerPath := sp
          type := some (some 2)
          gasPrice := none
          maxPriorityFeePerGas := some p
          maxFeePerGas := some f
          accessList := some (tx.accessList.getD [])
          revertToLegacy := false }) := by
  have hb : buildTxData tx sp = Except.ok
      { chainId := tx.chainId, nonce := tx.nonce, gasLimit := tx.gasLimit
        «to» := toAddr, value := tx.value
        data := if tx.data.length = 0 then none else some tx.data
        signerPath := sp
        type := some (some 2)
        maxPriorityFeePerGas := some p
        maxFeePerGas := some f
        accessList := some (tx.accessList.getD []) } := by
    unfold buildTxData
    rw [hto, hty, hp, hf]
  constructor
  · intro hmaj0 hmin11
    have hforce : forceLegacyTx fw = true := by
      simp [forceLegacyTx, jsIdxLt, hmin, hmaj, hmaj0, hmin11]
    simp [buildSignRequest, hb, Except.map, negotiateFirmware, hforce]
  · intro hge
    have hforce : forceLegacyTx fw = false := by
      simp only [forceLegacyTx, jsIdxLt, hmin, hmaj, Bool.and_eq_false_iff,
        decide_eq_false_iff_not, not_lt]
      omega
    simp [buildSignRequest, hb, Except.map, negotiateFirmware, hforce]

/-- Witness for C1: the sample EIP-1559 transaction against firmware
`[5, 10, 0, 0]` (version 0.10.5) is downgraded with `gasPrice` taken from
`maxFeePerGas = 2`; against `[0, 11, 0, 0]` (version 0.11.0) it is kept. -/
theorem eip1559_firmware_downgrade_witness :
    (buildSignRequest tx1559 [2147483692] [5, 10, 0, 0] = Except.ok
      { chainId := 1, nonce := 0, gasLimit := 21000, «to» := "aabb", value := 5
        data := none, signerPath := [2147483692]
        type := none, gasPrice := some 2, maxPriorityFeePerGas := none
        maxFeePerGas := none, accessList := none, revertToLegacy := true }) ∧
    (buildSignRequest tx1559 [2147483692] [0, 11, 0, 0] = Except.ok
      { chainId := 1, nonce := 0, gasLimit := 21000, «to» := "aabb", value := 5
        data := none, signerPath := [2147483692]
        type := some (some 2), gasPrice := none, maxPriorityFeePerGas := some 1
        maxFeePerGas := some 2, accessList := some [], revertToLegacy := false }) :=
  ⟨(eip1559_firmware_downgrade tx1559 [2147483692] [5, 10, 0, 0] "aabb" 1 2 10 0
      rfl rfl rfl rfl rfl rfl).1 rfl (by omega),
   (eip1559_firmware_downgrade tx1559 [2147483692] [0, 11, 0, 0] "aabb" 1 2 11 0
      rfl rfl rfl rfl rfl rfl).2 (Or.inr (by omega))⟩

/-- **C7**: a transaction declaring type EIP-1559 whose
`maxPriorityFeePerGas` or `maxFeePerGas` is null or absent makes
`signTransaction` reject before any signing call reaches the device
(`buildSignRequest` produces an error, so no request object — legacy or
otherwise — is ever handed to `_signTxData`); when the `to` field is
present the rejection is the fee-validation error. -/
theorem eip1559_missing_fee_rejects (tx : Tx) (sp fw : List Nat)
    (hty : tx.«_type» = some 2)
    (hmiss : tx.maxPriorityFeePerGas = none ∨ tx.maxFeePerGas = none) :
    (∃ msg, buildSignRequest tx sp fw = Except.error msg) ∧
    (tx.«to» ≠ none → buildSignRequest tx sp fw = Except.error feeFieldsMsg) := by
  have key : ∀ toAddr, tx.«to» = some toAddr →
      buildSignRequest tx sp fw = Except.error feeFieldsMsg := by
    intro toAddr hto
    unfold buildSignRequest buildTxData
    rw [hto, hty]
    rcases hmiss with h | h
    · rw [h]
      rcases tx.maxFeePerGas with _ | v <;> rfl
    · rw [h]
      rcases tx.maxPriorityFeePerGas with _ | v <;> rfl
  constructor
  · rcases hto : tx.«to» with _ | a
    · refine ⟨deploymentMsg, ?_⟩
      unfold buildSignRequest buildTxData
      rw [hto]
      rfl
    · exact ⟨feeFieldsMsg, key a hto⟩
  · intro hne
    rcases hto : tx.«to» with _ | a
    · exact absurd hto hne
    · exact key a hto

/-- Witness for C7: the sample EIP-1559 transaction without a
`maxFeePerGas` is rejected with the fee-validation error. -/
theorem eip1559_missing_fee_rejects_witness :
    buildSignRequest tx1559NoMaxFee [2147483692] [0, 11, 0, 0] =
      Except.error feeFieldsMsg :=
  (eip1559_missing_fee_rejects tx1559NoMaxFee [2147483692] [0, 11, 0, 0]
      rfl (Or.inr rfl)).2 (by simp [tx1559NoMaxFee, tx1559])

/-- **C2**: a connect with `updateData == false` that sees a wallet UID
different from the cached one rejects with the stale-wallet error and
returns the state exactly as it was — in particular the cached account
list and the cached wallet identity are untouched. -/
theorem connect_staleWallet_rejects_unchanged (s : KeyringState) (uid : String)
    (h : s.walletUID ≠ some uid) :
    connectStep s false (.wallet uid) = (s, Except.error staleWalletMsg) ∧
    (connectStep s false (.wallet uid)).1.accounts = s.accounts ∧
    (connectStep s false (.wallet uid)).1.walletUID = s.walletUID := by
  have hstep : connectStep s false (.wallet uid) = (s, Except.error staleWalletMsg) := by
    simp [connectStep, h]
  exact ⟨hstep, by rw [hstep], by rw [hstep]⟩

/-- Witness for C2: the sample state caches uid `aa`; a connect seeing
uid `bb` with `updateData = false` rejects and leaves the state as is. -/
theorem connect_staleWallet_rejects_unchanged_witness :
    connectStep sampleState false (.wallet "bb") =
      (sampleState, Except.error staleWalletMsg) ∧
    (connectStep sampleState false (.wallet "bb")).1.accounts = sampleState.accounts ∧
    (connectStep sampleState false (.wallet "bb")).1.walletUID = sampleState.walletUID :=
  connect_staleWallet_rejects_unchanged sampleState "bb" (by decide)

/-- **C3**: a connect with `updateData == true` is a cache-preserving
no-op when the reported UID equals the cached one, and clears the account
cache while adopting the new UID when it differs; over the UID sequence
`[A, A, B]` the cache is cleared exactly once, at the A-to-B transition
(the two A-connects return the state unchanged). -/
theorem connect_updateData_reconciles (s : KeyringState) (A B : String)
    (hA : s.walletUID = some A) (hAB : B ≠ A) :
    connectStep s true (.wallet A) = (s, Except.ok ()) ∧
    connectStep (connectStep s true (.wallet A)).1 true (.wallet A) =
      (s, Except.ok ()) ∧
    connectStep
        (connectStep (connectStep s true (.wallet A)).1 true (.wallet A)).1
        true (.wallet B) =
      ({ s with accounts := [], walletUID := some B }, Except.ok ()) := by
  have h1 : connectStep s true (.wallet A) = (s, Except.ok ()) := by
    simp [connectStep, hA]
  have h3 : connectStep s true (.wallet B) =
      ({ s with accounts := [], walletUID := some B }, Except.ok ()) := by
    have hne : s.walletUID ≠ some B := by
      rw [hA]
      intro hcontra
      exact hAB (Option.some.inj hcontra).symm
    simp [connectStep, hne]
  exact ⟨h1, by rw [h1]; exact h1, by rw [h1, h1]; exact h3⟩

/-- Witness for C3: the sample state under the UID sequence
`["aa", "aa", "bb"]`. -/
theorem connect_updateData_reconciles_witness :
    connectStep sampleState true (.wallet "aa") = (sampleState, Except.ok ()) ∧
    connectStep (connectStep sampleState true (.wallet "aa")).1 true (.wallet "aa") =
      (sampleState, Except.ok ()) ∧
    connectStep
        (connectStep (connectStep sampleState true (.wallet "aa")).1 true
          (.wallet "aa")).1
        true (.wallet "bb") =
      ({ sampleState with accounts := [], walletUID := some "bb" }, Except.ok ()) :=
  connect_updateData_reconciles sampleState "aa" "bb" rfl (by decide)

/-- **C10**: when a connect with `updateData == true` observes a new
wallet UID, only `accounts` is cleared and `walletUID` updated; every
other field — `accountIndices`, credentials, page cursor, `hdPath`,
session handle, lock flag, unlocked index, network, app name — keeps its
previous contents, so a non-empty `accountIndices` ends up with a length
different from the cleared `accounts`. -/
theorem connect_update_clears_only_accounts (s : KeyringState) (uid : String)
    (h : s.walletUID ≠ some uid) :
    (connectStep s true (.wallet uid)).2 = Except.ok () ∧
    (connectStep s true (.wallet uid)).1.accounts = [] ∧
    (connectStep s true (.wallet uid)).1.walletUID = some uid ∧
    (connectStep s true (.wallet uid)).1.accountIndices = s.accountIndices ∧
    (connectStep s true (.wallet uid)).1.creds = s.creds ∧
    (connectStep s true (.wallet uid)).1.page = s.page ∧
    (connectStep s true (.wallet uid)).1.hdPath = s.hdPath ∧
    (connectStep s true (.wallet uid)).1.sdkSession = s.sdkSession ∧
    (connectStep s true (.wallet uid)).1.isLocked = s.isLocked ∧
    (connectStep s true (.wallet uid)).1.unlockedAccount = s.unlockedAccount ∧
    (connectStep s true (.wallet uid)).1.network = s.network ∧
    (connectStep s true (.wallet uid)).1.appName = s.appName ∧
    (s.accountIndices ≠ [] →
      (connectStep s true (.wallet uid)).1.accounts.length ≠
        (connectStep s true (.wallet uid)).1.accountIndices.length) := by
  have hstep : connectStep s true (.wallet uid) =
      ({ s with accounts := [], walletUID := some uid }, Except.ok ()) := by
    simp [connectStep, h]
  rw [hstep]
  refine ⟨rfl, rfl, rfl, rfl, rfl, rfl, rfl, rfl, rfl, rfl, rfl, rfl, ?_⟩
  intro hne
  simp only [List.length_nil]
  intro hlen
  exact hne (List.length_eq_zero.mp hlen.symm)

/-- Witness for C10: the sample state (one cached account index) after a
wallet swap to uid `bb` keeps `accountIndices = [0]` while `accounts` is
cleared, so the two arrays have different lengths. -/
theorem connect_update_clears_only_accounts_witness :
    (connectStep sampleState true (.wallet "bb")).2 = Except.ok () ∧
    (connectStep sampleState true (.wallet "bb")).1.accounts = [] ∧
    (connectStep sampleState true (.wallet "bb")).1.walletUID = some "bb" ∧
    (connectStep sampleState true (.wallet "bb")).1.accountIndices =
      sampleState.accountIndices ∧
    (connectStep sampleState true (.wallet "bb")).1.creds = sampleState.creds ∧
    (connectStep sampleState true (.wallet "bb")).1.page = sampleState.page ∧
    (connectStep sampleState true (.wallet "bb")).1.hdPath = sampleState.hdPath ∧
    (connectStep sampleState true (.wallet "bb")).1.sdkSession =
      sampleState.sdkSession ∧
    (connectStep sampleState true (.wallet "bb")).1.isLocked =
      sampleState.isLocked ∧
    (connectStep sampleState true (.wallet "bb")).1.unlockedAccount =
      sampleState.unlockedAccount ∧
    (connectStep sampleState true (.wallet "bb")).1.network =
      sampleState.network ∧
    (connectStep sampleState true (.wallet "bb")).1.appName =
      sampleState.appName ∧
    (sampleState.accountIndices ≠ [] →
      (connectStep sampleState true (.wallet "bb")).1.accounts.length ≠
        (connectStep sampleState true (.wallet "bb")).1.accountIndices.length) :=
  connect_update_clears_only_accounts sampleState "bb" (by decide)

/-- **C8 counterexample**: with `deviceID` and `password` both the empty
string (and a non-empty app name) `_hasCreds` is still true, because the
code only compares them against `null`; this refutes the claim that
`hasCredentials` returns false whenever any of the three is an empty
string. -/
theorem hasCreds_empty_string_counterexample :
    emptyCredsState.creds.deviceID = JSVal.str "" ∧
    emptyCredsState.creds.password = JSVal.str "" ∧
    hasCreds emptyCredsState = true :=
  ⟨rfl, rfl, by decide⟩

/-- **C8 (amended)**: `_hasCreds` is true iff `deviceID` is not `null`,
`password` is not `null`, and the app name is present and non-empty; the
strict `!== null` checks accept an empty-string (or absent) deviceID and
password, so only the app name is actually required to be non-empty. -/
theorem hasCreds_iff_nonnull_and_truthy_appName (s : KeyringState) :
    hasCreds s = true ↔
      (s.creds.deviceID ≠ JSVal.null ∧ s.creds.password ≠ JSVal.null ∧
        ∃ a, s.appName = JSVal.str a ∧ a ≠ "") := by
  unfold hasCreds
  simp only [Bool.and_eq_true, decide_eq_true_eq]
  constructor
  · rintro ⟨⟨hd, hp⟩, ha⟩
    refine ⟨hd, hp, ?_⟩
    cases hn : s.appName with
    | undef => rw [hn] at ha; exact absurd ha (by simp [JSVal.truthy])
    | null => rw [hn] at ha; exact absurd ha (by simp [JSVal.truthy])
    | str a =>
      refine ⟨a, rfl, ?_⟩
      rw [hn] at ha
      simpa [JSVal.truthy] using ha
  · rintro ⟨hd, hp, a, ha, hane⟩
    exact ⟨⟨hd, hp⟩, by simp [ha, JSVal.truthy, hane]⟩

/-- **C9**: `addAccounts` called with the close code `-1000` resets the
keyring state via `forgetDevice` (accounts, indices, credentials, wallet
UID, session, page, unlocked index, network and HD path all return to
their defaults) and resolves with the empty list; any other `n ≤ 0`
rejects immediately — before the `unlock()`/device path — and leaves the
state untouched. -/
theorem addAccounts_close_code_and_nonpositive (s : KeyringState) (n : Int) :
    (addAccountsEntry s CLOSE_CODE = (forgetDevice s, AddAccountsOutcome.resolved []) ∧
      (forgetDevice s).accounts = [] ∧
      (forgetDevice s).accountIndices = [] ∧
      (forgetDevice s).isLocked = true ∧
      (forgetDevice s).creds =
        { deviceID := JSVal.null, password := JSVal.null, endpoint := JSVal.null } ∧
      (forgetDevice s).walletUID = none ∧
      (forgetDevice s).sdkSession = none ∧
      (forgetDevice s).page = 0 ∧
      (forgetDevice s).unlockedAccount = 0 ∧
      (forgetDevice s).network = none ∧
      (forgetDevice s).hdPath = STANDARD_HD_PATH) ∧
    (n ≤ 0 → n ≠ CLOSE_CODE →
      addAccountsEntry s n = (s, AddAccountsOutcome.rejected nonPositiveMsg)) := by
  refine ⟨⟨by simp [addAccountsEntry], rfl, rfl, rfl, rfl, rfl, rfl, rfl, rfl, rfl, rfl⟩, ?_⟩
  intro hle hne
  simp [addAccountsEntry, hne, hle]

/-- Witness for C9: on the sample state, `addAccounts(-1000)` resets and
resolves `[]`, while `addAccounts(-1)` rejects and leaves the state as
it was. -/
theorem addAccounts_close_code_and_nonpositive_witness :
    addAccountsEntry sampleState CLOSE_CODE =
      (forgetDevice sampleState, AddAccountsOutcome.resolved []) ∧
    addAccountsEntry sampleState (-1) =
      (sampleState, AddAccountsOutcome.rejected nonPositiveMsg) :=
  ⟨(addAccounts_close_code_and_nonpositive sampleState (-1)).1.1,
   (addAccounts_close_code_and_nonpositive sampleState (-1)).2
     (by decide) (by decide)⟩

end LatticeKeyring
